import Mathlib

/-!
Shallow embedding of the dbnest container-management core.

The definitions below are translated from the Go sources of the
repository (pkg/database/manager.go, pkg/runtime/cli/client.go, the
docker and containerd runtime backends, pkg/storage, and the backup
scheduler), and the theorems check the specification's claims against
them.  External effects (the container runtime, the operating system's
port probe, directory creation) are passed in as explicit result
parameters, mirroring exactly how the Go code consumes them.
-/

namespace DBNest

/-! ## Runtime status mapping (docker backend, docker.Client.GetContainerStatus) -/

/-- The boolean state flags returned by a docker container inspection
(`info.State` in docker.Client.GetContainerStatus). -/
structure DockerContainerState where
  running : Bool
  paused : Bool
  restarting : Bool
  dead : Bool
  oomKilled : Bool
deriving DecidableEq, Repr

/-- Result of the docker inspect call: the state flags, a not-found
error, or some other inspection error. -/
inductive DockerInspectResult where
  | found (state : DockerContainerState)
  | notFound
  | inspectError
deriving DecidableEq, Repr

/-- The cascade of checks docker.Client.GetContainerStatus applies to an
inspected state (manager source: running, then paused, then restarting,
then dead/OOM-killed, default). -/
def dockerStateStatus (s : DockerContainerState) : String :=
  if s.running then "running"
  else if s.paused then "stopped"
  else if s.restarting then "creating"
  else if s.dead || s.oomKilled then "error"
  else "stopped"

/-- docker.Client.GetContainerStatus: a not-found inspect error yields
the canonical status "error"; any other inspect error is propagated. -/
def dockerGetContainerStatus : DockerInspectResult → Except Unit String
  | .found s => .ok (dockerStateStatus s)
  | .notFound => .ok "error"
  | .inspectError => .error ()

/-! ## Runtime status mapping (containerd backend, containerd.Client.GetContainerStatus) -/

/-- Task states of the containerd backend (containerd.Running etc.).
`unknown` stands for any other value the library could report. -/
inductive ContainerdTaskStatus where
  | created
  | running
  | pausing
  | paused
  | stopped
  | unknown
deriving DecidableEq, Repr

/-- What the containerd status query can observe: the container fails to
load, the container has no task, the task status query fails, or a task
status is returned. -/
inductive ContainerdQueryResult where
  | loadError
  | noTask
  | statusError
  | task (st : ContainerdTaskStatus)
deriving DecidableEq, Repr

/-- The switch in containerd.Client.GetContainerStatus over the task
status. -/
def containerdTaskStatusToCanonical : ContainerdTaskStatus → String
  | .running => "running"
  | .created => "creating"
  | .pausing => "creating"
  | .stopped => "stopped"
  | .paused => "stopped"
  | .unknown => "error"

/-- containerd.Client.GetContainerStatus: load errors and task-status
errors yield "error", a missing task yields "stopped"; the function
never returns a Go error. -/
def containerdGetContainerStatus : ContainerdQueryResult → String
  | .loadError => "error"
  | .noTask => "stopped"
  | .statusError => "error"
  | .task st => containerdTaskStatusToCanonical st

/-! ## CLI backend byte-size parser (cli/client.go parseBytes) -/

/-- A character matched by the `[\d.]` class of parseBytes's regex. -/
def isNumChar (c : Char) : Bool := c.isDigit || c == '.'

/-- strings.TrimSpace on a character list (ASCII whitespace). -/
def goTrimSpace (l : List Char) : List Char :=
  ((l.dropWhile Char.isWhitespace).reverse.dropWhile Char.isWhitespace).reverse

/-- Decimal digits folded into a natural number. -/
def digitsToNat (l : List Char) : Nat :=
  l.foldl (fun acc c => acc * 10 + (c.toNat - '0'.toNat)) 0

/-- strconv.ParseFloat restricted to the strings the regex admits
(digits and dots): more than one dot or no digit at all is a syntax
error; otherwise the exact decimal value, represented as a mantissa and
a count of fractional digits (value = mantissa / 10 ^ fracDigits). -/
def parseGoFloat (l : List Char) : Option (Nat × Nat) :=
  if 1 < l.count '.' then none
  else if !(l.any Char.isDigit) then none
  else
    let intPart := l.takeWhile (fun c => !(c == '.'))
    let fracPart := (l.dropWhile (fun c => !(c == '.'))).drop 1
    some (digitsToNat (intPart ++ fracPart), fracPart.length)

/-- cli parseBytes: trim, empty/"--" guard, match
`^([\d.]+)\s*([A-Za-z]+)$` (the three character classes are disjoint, so
the greedy match is the take-while decomposition), parse the number,
look up the unit multiplier (note the missing default case: an
unrecognized unit keeps multiplier 1), truncate to an integer. -/
def parseBytes (s : String) : Int :=
  let t := goTrimSpace s.toList
  if t = [] || t = "--".toList then 0
  else
    let numPart := t.takeWhile isNumChar
    let rest := t.dropWhile isNumChar
    let unitPart := rest.dropWhile Char.isWhitespace
    if numPart = [] || unitPart = [] || !(unitPart.all Char.isAlpha) then 0
    else
      match parseGoFloat numPart with
      | none => 0
      | some value =>
        let unit := unitPart.map Char.toLower
        let multiplier : Nat :=
          if unit = "b".toList then 1
          else if unit = "kb".toList || unit = "kib".toList then 1024
          else if unit = "mb".toList || unit = "mib".toList then 1024 * 1024
          else if unit = "gb".toList || unit = "gib".toList then 1024 * 1024 * 1024
          else if unit = "tb".toList || unit = "tib".toList then 1024 * 1024 * 1024 * 1024
          else 1
        ((value.1 * multiplier) / 10 ^ value.2 : Nat)

/-! ## containerd image-name normalization (normalizeImageName) -/

/-- containerd normalizeImageName: a name whose first path segment
contains a dot passes through; a name without a slash gets the
"docker.io/library/" prefix; any other name gets the "docker.io/"
prefix. -/
def normalizeImageName (name : String) : String :=
  let l := name.toList
  if l.contains '/' && (l.takeWhile (fun c => !(c == '/'))).contains '.' then name
  else if !(l.contains '/') then "docker.io/library/" ++ name
  else "docker.io/" ++ name

/-! ## Data model (pkg/storage/storage.go) -/

/-- storage.DatabaseInstance.  Timestamps are modelled as naturals,
byte counts as integers, the CPU limit as a rational. -/
structure DatabaseInstance where
  id : String
  name : String
  engine : String
  version : String
  status : String
  host : String
  port : Nat
  username : String
  password : String
  database : String
  containerID : String
  createdAt : Nat
  storageUsed : Int
  storageLimit : Int
  memoryLimit : Int
  cpuLimit : ℚ
  connections : Int
  maxConnections : Int
  errorMessage : String
  exposePort : Bool
  network : String
  backupEnabled : Bool
  backupSchedule : String
  backupRetentionCount : Int
  lastBackupAt : Option Nat
deriving DecidableEq, Repr

/-- storage.Backup. -/
structure Backup where
  id : String
  databaseID : String
  databaseName : String
  createdAt : Nat
  size : Int
  status : String
  filePath : String
deriving DecidableEq, Repr

/-! ## Persistence store (pkg/storage/bolt.go, database records)

The bolt store is a key-value bucket keyed by record ID; it is modelled
as a list of records.  Get returns the record or a not-found error;
Create is a bolt Put (upsert); Update and Delete require the key to be
present and otherwise return a not-found error without mutating. -/

/-- The set of persisted database records. -/
abbrev Store := List DatabaseInstance

/-- BoltStorage.GetDatabase. -/
def getDatabase (s : Store) (id : String) : Except String DatabaseInstance :=
  match s.find? (fun db => db.id == id) with
  | some db => .ok db
  | none => .error ("database not found: " ++ id)

/-- BoltStorage.CreateDatabase (a bolt Put: replaces an existing record
with the same ID, otherwise appends). -/
def createDatabase (s : Store) (db : DatabaseInstance) : Store :=
  if s.any (fun d => d.id == db.id) then
    s.map (fun d => if d.id == db.id then db else d)
  else s ++ [db]

/-- BoltStorage.UpdateDatabase: not-found error if the ID is absent. -/
def updateDatabase (s : Store) (db : DatabaseInstance) : Except String Store :=
  if s.any (fun d => d.id == db.id) then
    .ok (s.map (fun d => if d.id == db.id then db else d))
  else .error ("database not found: " ++ db.id)

/-- BoltStorage.UpdateDatabase as called by code paths that discard its
error (background provisioning and status sync): replaces the record
when present, otherwise leaves the store unchanged. -/
def updateDatabaseBE (s : Store) (db : DatabaseInstance) : Store :=
  s.map (fun d => if d.id == db.id then db else d)

/-- BoltStorage.DeleteDatabase: not-found error if the ID is absent. -/
def deleteDatabase (s : Store) (id : String) : Except String Store :=
  if s.any (fun d => d.id == id) then
    .ok (s.filter (fun d => !(d.id == id)))
  else .error ("database not found: " ++ id)

/-! ## Runtime-client call trace

Manager operations are given the outcomes of their runtime-client calls
as parameters and additionally return the list of calls they issued, so
that claims about which client operations run (and which never run) can
be stated. -/

/-- One call across the runtime.Client interface. -/
inductive RuntimeCall where
  | pullImage (image : String)
  | createContainer (name : String)
  | startContainer (containerID : String)
  | stopContainer (containerID : String)
  | removeContainer (containerID : String) (force : Bool)
  | getContainerStatus (containerID : String)
  | updateContainerResources (containerID : String) (memoryLimit : Int) (cpuLimit : ℚ)
  | deleteVolume (name : String)
deriving DecidableEq, Repr

/-! ## Port allocation (Manager.findAvailablePortLocked) -/

/-- The probe loop of Manager.findAvailablePortLocked: `used` is the
port set taken from the store, `avail` is the operating system's
net.Listen probe, `fuel` the remaining attempts (maxAttempts = 1000).
A used port is skipped by a bare increment; an OS-unavailable port is
incremented with the wrap-around check `port > 65535 → startPort`; when
the attempts run out the current counter is returned. -/
def findPortLoop (used avail : Nat → Bool) (startPort : Nat) : Nat → Nat → Nat
  | port, 0 => port
  | port, fuel + 1 =>
    if used port then findPortLoop used avail startPort (port + 1) fuel
    else if avail port then port
    else findPortLoop used avail startPort
      (if 65535 < port + 1 then startPort else port + 1) fuel

/-- The ports examined by the probe loop, in order. -/
def findPortTrace (used avail : Nat → Bool) (startPort : Nat) : Nat → Nat → List Nat
  | _, 0 => []
  | port, fuel + 1 =>
    if used port then port :: findPortTrace used avail startPort (port + 1) fuel
    else if avail port then [port]
    else port :: findPortTrace used avail startPort
      (if 65535 < port + 1 then startPort else port + 1) fuel

/-- The port set recorded on the instances in the store
(`usedPorts` in findAvailablePortLocked). -/
def usedPortsOf (s : Store) : Nat → Bool :=
  fun p => s.any (fun db => db.port == p)

/-- Manager.findAvailablePortLocked. -/
def findAvailablePortLocked (s : Store) (avail : Nat → Bool) (startPort : Nat) : Nat :=
  findPortLoop (usedPortsOf s) avail startPort startPort 1000

/-- The ports findAvailablePortLocked examines, in order. -/
def findAvailablePortTried (s : Store) (avail : Nat → Bool) (startPort : Nat) : List Nat :=
  findPortTrace (usedPortsOf s) avail startPort startPort 1000

/-! ## Create / provisioning (Manager.createDedicatedDatabase,
Manager.provisionDedicatedDatabase) -/

/-- The engine registry entry fields the create path consults. -/
structure Engine where
  name : String
  defaultPort : Nat
  image : String
  dataPath : String
deriving DecidableEq, Repr

/-- database.CreateRequest (the fields the create path reads; the
password is assumed already filled in by Manager.Create). -/
structure CreateRequest where
  name : String
  engine : String
  version : String
  username : String
  password : String
  database : String
  port : Nat
  storageLimit : Int
  memoryLimit : Int
  network : String
  exposePort : Option Bool
deriving DecidableEq, Repr

/-- OS-level outcomes consulted by createDedicatedDatabase: the
net.Listen port probe and the data-directory resolution/creation. -/
structure CreateEnv where
  portAvailable : Nat → Bool
  mkdirOk : Bool

/-- Manager.createDedicatedDatabase, up to and including the durable
CreateDatabase write (the background provisioning goroutine it spawns is
`provisionDedicatedDatabase` below).  `id` is the freshly generated
"db-…" identifier and `now` the creation timestamp. -/
def createDedicatedDatabase (engines : String → Option Engine) (env : CreateEnv)
    (id : String) (now : Nat) (s : Store) (req : CreateRequest) :
    Except String (DatabaseInstance × Store) :=
  match engines req.engine with
  | none => .error ("unsupported engine: " ++ req.engine)
  | some engine =>
    let port := if req.port = 0
      then findAvailablePortLocked s env.portAvailable engine.defaultPort
      else req.port
    if env.mkdirOk then
      let db : DatabaseInstance := {
        id := id
        name := req.name
        engine := req.engine
        version := req.version
        status := "creating"
        host := "localhost"
        port := port
        username := req.username
        password := req.password
        database := req.database
        containerID := ""
        createdAt := now
        storageUsed := 0
        storageLimit := req.storageLimit * 1024 * 1024
        memoryLimit := req.memoryLimit * 1024 * 1024
        cpuLimit := 1
        connections := 0
        maxConnections := 100
        errorMessage := ""
        exposePort := req.exposePort.getD true
        network := req.network
        backupEnabled := false
        backupSchedule := ""
        backupRetentionCount := 0
        lastBackupAt := none }
      .ok (db, createDatabase s db)
    else .error "failed to create data directory"

/-- Outcomes of the three runtime-client calls the provisioning worker
makes, in the order it makes them. -/
structure ProvisionEnv where
  pullImage : Except String Unit
  createContainer : Except String String
  startContainer : Except String Unit

/-- Manager.provisionDedicatedDatabase: pull the image, create the
container, start it; the first failure persists status "error" with a
descriptive message and stops; success persists status "running" with
the container ID and a cleared error message.  Each store write is the
error-discarding UpdateDatabase of the Go code.  Returns the updated
store and the runtime-client calls issued.  (The optional seeding
goroutine spawned after the running transition is outside this model.) -/
def provisionDedicatedDatabase (env : ProvisionEnv) (db : DatabaseInstance)
    (imageName : String) (s : Store) : Store × List RuntimeCall :=
  match env.pullImage with
  | .error e =>
    (updateDatabaseBE s { db with
        status := "error"
        errorMessage := "Failed to pull image: " ++ e },
     [.pullImage imageName])
  | .ok _ =>
    match env.createContainer with
    | .error e =>
      (updateDatabaseBE s { db with
          status := "error"
          errorMessage := "Failed to create container: " ++ e },
       [.pullImage imageName, .createContainer ("dbnest-" ++ db.id)])
    | .ok containerID =>
      match env.startContainer with
      | .error e =>
        (updateDatabaseBE s { db with
            containerID := containerID
            status := "error"
            errorMessage := "Failed to start container: " ++ e },
         [.pullImage imageName, .createContainer ("dbnest-" ++ db.id),
          .startContainer containerID])
      | .ok _ =>
        (updateDatabaseBE s { db with
            containerID := containerID
            status := "running"
            errorMessage := "" },
         [.pullImage imageName, .createContainer ("dbnest-" ++ db.id),
          .startContainer containerID])

/-! ## Status reconciliation (Manager.syncStatus) -/

/-- Manager.syncStatus for one stored instance.  `query` is the outcome
of the runtime client's GetContainerStatus call (which the sync loop
only issues when the guard lets it through). -/
def syncStatus (query : Except Unit String) (s : Store) (db : DatabaseInstance) : Store :=
  if db.containerID = "" ∨ db.status = "creating" then s
  else
    match query with
    | .error _ =>
      if db.status = "running" then
        updateDatabaseBE s { db with
          status := "error"
          errorMessage := "Container not accessible" }
      else s
    | .ok actualStatus =>
      if actualStatus ≠ db.status then
        updateDatabaseBE s { db with
          status := actualStatus
          errorMessage := if actualStatus = "running" then "" else db.errorMessage }
      else s

/-! ## Delete (Manager.Delete) -/

/-- Outcomes of the three best-effort teardown steps; the Go code reads
them only to log a warning. -/
structure DeleteEnv where
  removeContainerError : Option String
  deleteVolumeError : Option String
  removeDataDirError : Option String

/-- Manager.Delete: look the record up (a not-found error aborts with no
effect), attempt container removal (when a container ID is recorded),
volume removal and data-directory removal regardless of individual
failures, then delete the record.  Returns the store outcome, the
runtime-client calls issued, and whether data-directory removal was
attempted. -/
def managerDelete (_env : DeleteEnv) (s : Store) (id : String) :
    Except String Store × List RuntimeCall × Bool :=
  match getDatabase s id with
  | .error e => (.error e, [], false)
  | .ok db =>
    ((deleteDatabase s id),
     (if db.containerID ≠ "" then [RuntimeCall.removeContainer db.containerID true] else [])
       ++ [RuntimeCall.deleteVolume ("dbnest-vol-" ++ id)],
     true)

/-! ## Resource-limit update (Manager.UpdateResources) -/

/-- The two guarded field writes of Manager.UpdateResources: MemoryLimit
is overwritten when memoryLimit > 0 and CPULimit when cpuLimit > 0. -/
def applyResourceLimits (db : DatabaseInstance) (memoryLimit : Int) (cpuLimit : ℚ) :
    DatabaseInstance :=
  let db1 := if 0 < memoryLimit then { db with memoryLimit := memoryLimit } else db
  if 0 < cpuLimit then { db1 with cpuLimit := cpuLimit } else db1

/-- Manager.UpdateResources: read the record, overwrite MemoryLimit when
memoryLimit > 0 and CPULimit when cpuLimit > 0, persist.  The returned
call trace is the list of runtime-client calls issued (none: the Go
method never touches m.client). -/
def managerUpdateResources (s : Store) (id : String)
    (memoryLimit : Int) (cpuLimit : ℚ) :
    Except String (DatabaseInstance × Store) × List RuntimeCall :=
  match getDatabase s id with
  | .error e => (.error e, [])
  | .ok db =>
    match updateDatabase s (applyResourceLimits db memoryLimit cpuLimit) with
    | .error e => (.error e, [])
    | .ok s' => (.ok (applyResourceLimits db memoryLimit cpuLimit, s'), [])

/-! ## Backup retention (Scheduler.applyRetention, src part_000) -/

/-- The sort of Scheduler.applyRetention: sort.Slice with
`backups[i].CreatedAt.After(backups[j].CreatedAt)`, i.e. newest first. -/
def sortBackupsNewestFirst (l : List Backup) : List Backup :=
  l.insertionSort (fun a b => b.createdAt ≤ a.createdAt)

/-- The backups Scheduler.applyRetention attempts to delete: nothing
when the retention count is not positive or the backup count does not
exceed it; otherwise every backup past the first `retentionCount`
entries of the newest-first order.  A failed deletion is only logged, so
the attempt list does not depend on deletion outcomes. -/
def applyRetentionDeletions (retentionCount : Int) (backups : List Backup) : List Backup :=
  if retentionCount ≤ 0 then []
  else if (backups.length : Int) ≤ retentionCount then []
  else (sortBackupsNewestFirst backups).drop retentionCount.toNat

/-- The backups the retention pass leaves untouched (the newest
`retentionCount`, or all of them when the pass bails out early). -/
def applyRetentionKept (retentionCount : Int) (backups : List Backup) : List Backup :=
  if retentionCount ≤ 0 then backups
  else if (backups.length : Int) ≤ retentionCount then backups
  else (sortBackupsNewestFirst backups).take retentionCount.toNat

/-- The deletion loop of applyRetention run against the backup bucket:
each attempted deletion removes the record when the store's
DeleteBackup succeeds (`deleteOk`), and a failure is only logged. -/
def applyRetentionRun (deleteOk : String → Bool) (retentionCount : Int)
    (backups : List Backup) (bucket : List Backup) : List Backup :=
  (applyRetentionDeletions retentionCount backups).foldl
    (fun st b => if deleteOk b.id then st.filter (fun x => !(x.id == b.id)) else st)
    bucket

/-! ## Container creation invocations (cli.Client.CreateContainer,
docker.Client.CreateContainer) -/

/-- types.ContainerConfig.  The Go map fields (port bindings, volumes,
labels) are modelled as association lists. -/
structure ContainerConfig where
  name : String
  image : String
  cmd : List String
  env : List String
  portBindings : List (String × String)
  volumes : List (String × String)
  memoryLimit : Int
  cpuLimit : ℚ
  labels : List (String × String)
  network : String
  exposePort : Bool
deriving DecidableEq, Repr

/-- fmt.Sprintf "%.2f" (two fractional digits; half-up rounding stands
in for the formatter's exact tie behaviour, which no claim depends
on). -/
def formatF2 (q : ℚ) : String :=
  let hundredths := q * 100 + 1 / 2
  let h := hundredths.num / (hundredths.den : Int)
  toString (h / 100) ++ "." ++ (if h % 100 < 10 then "0" else "") ++ toString (h % 100)

/-- cli.Client.CreateContainer: the argument vector passed to the
runtime binary.  `clientNetwork` is the network name fixed at client
construction. -/
def cliCreateContainerArgs (clientNetwork : String) (cfg : ContainerConfig) : List String :=
  ["create", "--name", cfg.name, "--network", clientNetwork]
    ++ cfg.env.flatMap (fun e => ["-e", e])
    ++ cfg.portBindings.flatMap (fun pb => ["-p", pb.2 ++ ":" ++ pb.1])
    ++ cfg.volumes.flatMap (fun v => ["-v", v.1 ++ ":" ++ v.2])
    ++ (if 0 < cfg.memoryLimit then ["--memory", toString cfg.memoryLimit] else [])
    ++ (if 0 < cfg.cpuLimit then ["--cpus", formatF2 cfg.cpuLimit] else [])
    ++ cfg.labels.flatMap (fun kv => ["--label", kv.1 ++ "=" ++ kv.2])
    ++ ["--restart", "unless-stopped", cfg.image]
    ++ cfg.cmd

/-- Docker mount types distinguished by docker.Client.CreateContainer. -/
inductive MountType where
  | bind
  | volume
deriving DecidableEq, Repr

/-- One mount entry of the docker host configuration. -/
structure DockerMount where
  type : MountType
  source : String
  target : String
deriving DecidableEq, Repr

/-- The ContainerCreate request docker.Client.CreateContainer sends to
the daemon (container config plus host config plus name). -/
structure DockerCreateInvocation where
  image : String
  cmd : List String
  env : List String
  exposedPorts : List String
  labels : List (String × String)
  portBindings : List (String × String × String)
  mounts : List DockerMount
  networkMode : String
  restartPolicy : String
  memory : Int
  nanoCPUs : Int
  containerName : String
deriving DecidableEq, Repr

/-- docker.Client.CreateContainer: the create request built from a
ContainerConfig.  Port bindings always bind to host IP 0.0.0.0; the
network is always the client's construction-time network; a volume
source that starts with neither "/" nor "." is a named volume. -/
def dockerCreateContainerInvocation (clientNetwork : String) (cfg : ContainerConfig) :
    DockerCreateInvocation :=
  { image := cfg.image
    cmd := cfg.cmd
    env := cfg.env
    exposedPorts := cfg.portBindings.map (fun pb => pb.1)
    labels := cfg.labels
    portBindings := cfg.portBindings.map (fun pb => (pb.1, "0.0.0.0", pb.2))
    mounts := cfg.volumes.map (fun v =>
      { type := if v.1.startsWith "/" || v.1.startsWith "." then .bind else .volume
        source := v.1
        target := v.2 })
    networkMode := clientNetwork
    restartPolicy := "unless-stopped"
    memory := if 0 < cfg.memoryLimit then cfg.memoryLimit else 0
    nanoCPUs := if 0 < cfg.cpuLimit then
        (fun q : ℚ => q.num / (q.den : Int)) (cfg.cpuLimit * 1000000000)
      else 0
    containerName := cfg.name }

/-! ## Concrete fixtures used to instantiate the theorems -/

/-- A concrete engine registry entry (the PostgreSQL engine). -/
def engineW : Engine :=
  { name := "postgresql", defaultPort := 5432, image := "postgres"
    dataPath := "/var/lib/postgresql/data" }

/-- A concrete create request with no caller-specified port. -/
def reqW : CreateRequest :=
  { name := "mydb", engine := "postgresql", version := "16", username := "admin"
    password := "pw", database := "mydb", port := 0, storageLimit := 1
    memoryLimit := 1, network := "", exposePort := none }

/-- A concrete stored instance. -/
def dbW : DatabaseInstance :=
  { id := "db-9", name := "mydb", engine := "postgresql", version := "16"
    status := "running", host := "localhost", port := 5432, username := "admin"
    password := "pw", database := "mydb", containerID := "c1", createdAt := 7
    storageUsed := 0, storageLimit := 1048576, memoryLimit := 1048576
    cpuLimit := 1, connections := 0, maxConnections := 100, errorMessage := ""
    exposePort := true, network := "", backupEnabled := false
    backupSchedule := "", backupRetentionCount := 0, lastBackupAt := none }

/-- A helper building a backup record with the given id and creation
time. -/
def mkBackupW (id : String) (createdAt : Nat) : Backup :=
  { id := id, databaseID := "db-9", databaseName := "mydb"
    createdAt := createdAt, size := 10, status := "completed"
    filePath := "/backups/" ++ id }

/-- Five completed backups with distinct, increasing creation
timestamps. -/
def backupsW : List Backup :=
  [mkBackupW "b1" 1, mkBackupW "b2" 2, mkBackupW "b3" 3,
   mkBackupW "b4" 4, mkBackupW "b5" 5]

/-- The instance record createDedicatedDatabase builds from reqW with
generated id "db-1" at time 0 on an empty store. -/
def dbCreatedW : DatabaseInstance :=
  { id := "db-1", name := "mydb", engine := "postgresql", version := "16"
    status := "creating", host := "localhost", port := 5432, username := "admin"
    password := "pw", database := "mydb", containerID := "", createdAt := 0
    storageUsed := 0, storageLimit := 1048576, memoryLimit := 1048576
    cpuLimit := 1, connections := 0, maxConnections := 100, errorMessage := ""
    exposePort := true, network := "", backupEnabled := false
    backupSchedule := "", backupRetentionCount := 0, lastBackupAt := none }

/-- A concrete container configuration. -/
def cfgW : ContainerConfig :=
  { name := "dbnest-db-9", image := "postgres:16", cmd := [], env := ["POSTGRES_USER=admin"]
    portBindings := [("5432/tcp", "15432")], volumes := [("dbnest-vol-db-9", "/var/lib/postgresql/data")]
    memoryLimit := 1048576, cpuLimit := 1, labels := [("dbnest.managed", "true")]
    network := "", exposePort := true }

/-! ## Store lemmas -/

lemma any_of_find? {p : DatabaseInstance → Bool} {l : Store} {a : DatabaseInstance}
    (h : l.find? p = some a) : l.any p = true :=
  List.any_eq_true.mpr ⟨a, List.mem_of_find?_eq_some h, List.find?_some h⟩

lemma find?_map_replace (s : Store) (db : DatabaseInstance)
    (h : s.any (fun d => d.id == db.id) = true) :
    (s.map (fun d => if d.id == db.id then db else d)).find? (fun d => d.id == db.id) =
      some db := by
  induction s with
  | nil => simp at h
  | cons a t ih =>
    by_cases ha : (a.id == db.id) = true
    · simp only [List.map_cons, if_pos ha, List.find?_cons, beq_self_eq_true]
    · have ha' : (a.id == db.id) = false := by simpa using ha
      have h' : t.any (fun d => d.id == db.id) = true := by
        simp only [List.any_cons, ha', Bool.false_or] at h
        exact h
      simp only [List.map_cons, if_neg ha]
      simp only [List.find?_cons, ha']
      exact ih h'

lemma find?_append_of_not_any {p : DatabaseInstance → Bool} (s l : Store)
    (h : s.any p = false) : (s ++ l).find? p = l.find? p := by
  induction s with
  | nil => simp
  | cons a t ih =>
    simp only [List.any_cons, Bool.or_eq_false_iff] at h
    simp only [List.cons_append, List.find?_cons, h.1]
    exact ih h.2

lemma getDatabase_createDatabase (s : Store) (db : DatabaseInstance) :
    getDatabase (createDatabase s db) db.id = .ok db := by
  unfold getDatabase createDatabase
  by_cases h : s.any (fun d => d.id == db.id) = true
  · rw [if_pos h, find?_map_replace s db h]
  · rw [if_neg h, find?_append_of_not_any s [db] (by simpa using h)]
    simp

lemma getDatabase_updateDatabaseBE (s : Store) (db0 dbNew : DatabaseInstance)
    (h : getDatabase s dbNew.id = .ok db0) :
    getDatabase (updateDatabaseBE s dbNew) dbNew.id = .ok dbNew := by
  unfold getDatabase at h ⊢
  unfold updateDatabaseBE
  cases hf : s.find? (fun d => d.id == dbNew.id) with
  | none => rw [hf] at h; simp at h
  | some d => rw [find?_map_replace s dbNew (any_of_find? hf)]

lemma find?_map_replace_other (s : Store) (dbNew : DatabaseInstance) (oid : String)
    (h : (dbNew.id == oid) = false) :
    (s.map (fun d => if d.id == dbNew.id then dbNew else d)).find? (fun d => d.id == oid) =
      s.find? (fun d => d.id == oid) := by
  induction s with
  | nil => simp
  | cons a t ih =>
    by_cases ha : (a.id == dbNew.id) = true
    · have haid : a.id = dbNew.id := by simpa using ha
      have ha2 : (a.id == oid) = false := by rw [haid]; exact h
      simp only [List.map_cons, if_pos ha]
      simp only [List.find?_cons, h, ha2]
      exact ih
    · simp only [List.map_cons, if_neg ha]
      simp only [List.find?_cons]
      cases hao : (a.id == oid) with
      | true => rfl
      | false => exact ih

lemma find?_filter_ne (s : Store) (id : String) :
    (s.filter (fun d => !(d.id == id))).find? (fun d => d.id == id) = none := by
  apply List.find?_eq_none.mpr
  intro x hx
  have hmem := List.mem_filter.mp hx
  simpa using hmem.2

/-! ## Port-probe lemmas -/

lemma getLast?_cons_of_getLast? {α : Type} (a : α) {l : List α} {x : α}
    (h : l.getLast? = some x) : (a :: l).getLast? = some x := by
  cases l with
  | nil => simp at h
  | cons b m => rw [List.getLast?_cons_cons]; exact h

lemma findPortLoop_spec (used avail : Nat → Bool) (startPort : Nat) :
    ∀ fuel port, fuel ≠ 0 →
      (findPortLoop used avail startPort port fuel ∈ findPortTrace used avail startPort port fuel ∧
       used (findPortLoop used avail startPort port fuel) = false ∧
       avail (findPortLoop used avail startPort port fuel) = true) ∨
      ((∀ p ∈ findPortTrace used avail startPort port fuel, used p = true ∨ avail p = false) ∧
       ∃ l, (findPortTrace used avail startPort port fuel).getLast? = some l ∧
         (findPortLoop used avail startPort port fuel = l + 1 ∨
          findPortLoop used avail startPort port fuel = startPort)) := by
  intro fuel
  induction fuel with
  | zero => intro port h; exact absurd rfl h
  | succ f ih =>
    intro port _
    by_cases hu : used port = true
    · have hloop : findPortLoop used avail startPort port (f + 1) =
          findPortLoop used avail startPort (port + 1) f := by
        simp [findPortLoop, hu]
      have htrace : findPortTrace used avail startPort port (f + 1) =
          port :: findPortTrace used avail startPort (port + 1) f := by
        simp [findPortTrace, hu]
      cases f with
      | zero =>
        right
        rw [hloop, htrace]
        refine ⟨?_, port, by simp [findPortTrace], Or.inl (by simp [findPortLoop])⟩
        intro p hp
        simp only [findPortTrace, List.mem_singleton] at hp
        subst hp
        exact Or.inl hu
      | succ f' =>
        rcases ih (port + 1) (Nat.succ_ne_zero f') with ⟨hmem, hfree⟩ | ⟨hbad, l, hl, hr⟩
        · left
          rw [hloop, htrace]
          exact ⟨List.mem_cons_of_mem _ hmem, hfree⟩
        · right
          rw [hloop, htrace]
          refine ⟨?_, l, getLast?_cons_of_getLast? port hl, hr⟩
          intro p hp
          rcases List.mem_cons.mp hp with rfl | hp'
          · exact Or.inl hu
          · exact hbad p hp'
    · have hu' : used port = false := by simpa using hu
      by_cases ha : avail port = true
      · left
        have hloop : findPortLoop used avail startPort port (f + 1) = port := by
          simp [findPortLoop, hu', ha]
        have htrace : findPortTrace used avail startPort port (f + 1) = [port] := by
          simp [findPortTrace, hu', ha]
        rw [hloop, htrace]
        exact ⟨List.mem_cons_self _ _, hu', ha⟩
      · have ha' : avail port = false := by simpa using ha
        have hloop : findPortLoop used avail startPort port (f + 1) =
            findPortLoop used avail startPort
              (if 65535 < port + 1 then startPort else port + 1) f := by
          simp [findPortLoop, hu', ha']
        have htrace : findPortTrace used avail startPort port (f + 1) =
            port :: findPortTrace used avail startPort
              (if 65535 < port + 1 then startPort else port + 1) f := by
          simp [findPortTrace, hu', ha']
        cases f with
        | zero =>
          right
          rw [hloop, htrace]
          refine ⟨?_, port, by simp [findPortTrace], ?_⟩
          · intro p hp
            simp only [findPortTrace, List.mem_singleton] at hp
            subst hp
            exact Or.inr ha'
          · by_cases hw : 65535 < port + 1
            · right; simp [findPortLoop, hw]
            · left; simp [findPortLoop, hw]
        | succ f' =>
          rcases ih (if 65535 < port + 1 then startPort else port + 1) (Nat.succ_ne_zero f') with
            ⟨hmem, hfree⟩ | ⟨hbad, l, hl, hr⟩
          · left
            rw [hloop, htrace]
            exact ⟨List.mem_cons_of_mem _ hmem, hfree⟩
          · right
            rw [hloop, htrace]
            refine ⟨?_, l, getLast?_cons_of_getLast? port hl, hr⟩
            intro p hp
            rcases List.mem_cons.mp hp with rfl | hp'
            · exact Or.inr ha'
            · exact hbad p hp'

lemma findPortLoop_all_bad (startPort : Nat) :
    ∀ fuel port, port + fuel ≤ 65535 →
      findPortLoop (fun _ => false) (fun _ => false) startPort port fuel = port + fuel := by
  intro fuel
  induction fuel with
  | zero => intro port _; simp [findPortLoop]
  | succ f ih =>
    intro port h
    have hw : ¬ 65535 < port + 1 := by omega
    simp only [findPortLoop, Bool.false_eq_true, if_false, if_neg hw]
    rw [ih (port + 1) (by omega)]
    omega

lemma findPortTrace_all_bad (startPort : Nat) :
    ∀ fuel port, port + fuel ≤ 65535 →
      findPortTrace (fun _ => false) (fun _ => false) startPort port fuel =
        List.range' port fuel := by
  intro fuel
  induction fuel with
  | zero => intro port _; simp [findPortTrace]
  | succ f ih =>
    intro port h
    have hw : ¬ 65535 < port + 1 := by omega
    simp only [findPortTrace, Bool.false_eq_true, if_false, if_neg hw]
    rw [ih (port + 1) (by omega), List.range'_succ]

/-! ## syncStatus lemmas -/

lemma syncStatus_skip (q : Except Unit String) (s : Store) (db : DatabaseInstance)
    (h : db.containerID = "" ∨ db.status = "creating") : syncStatus q s db = s := by
  unfold syncStatus
  rw [if_pos h]

lemma syncStatus_ok_eq (actual : String) (s : Store) (db : DatabaseInstance)
    (heq : actual = db.status) : syncStatus (.ok actual) s db = s := by
  unfold syncStatus
  by_cases hg : db.containerID = "" ∨ db.status = "creating"
  · rw [if_pos hg]
  · rw [if_neg hg]
    simp only [if_neg (show ¬ actual ≠ db.status from fun hne => hne heq)]

lemma syncStatus_err_notRunning (s : Store) (db : DatabaseInstance)
    (h : db.status ≠ "running") : syncStatus (.error ()) s db = s := by
  unfold syncStatus
  by_cases hg : db.containerID = "" ∨ db.status = "creating"
  · rw [if_pos hg]
  · rw [if_neg hg]
    simp only [if_neg h]

/-! ## Resource-update lemmas -/

lemma applyResourceLimits_id (db : DatabaseInstance) (m : Int) (c : ℚ) :
    (applyResourceLimits db m c).id = db.id := by
  unfold applyResourceLimits
  by_cases hm : 0 < m <;> by_cases hc : 0 < c <;> simp [hm, hc]

lemma applyResourceLimits_fields (db : DatabaseInstance) (m : Int) (c : ℚ) :
    (applyResourceLimits db m c).memoryLimit = (if 0 < m then m else db.memoryLimit) ∧
    (applyResourceLimits db m c).cpuLimit = (if 0 < c then c else db.cpuLimit) ∧
    (applyResourceLimits db m c).id = db.id ∧
    (applyResourceLimits db m c).name = db.name ∧
    (applyResourceLimits db m c).engine = db.engine ∧
    (applyResourceLimits db m c).version = db.version ∧
    (applyResourceLimits db m c).status = db.status ∧
    (applyResourceLimits db m c).host = db.host ∧
    (applyResourceLimits db m c).port = db.port ∧
    (applyResourceLimits db m c).username = db.username ∧
    (applyResourceLimits db m c).password = db.password ∧
    (applyResourceLimits db m c).database = db.database ∧
    (applyResourceLimits db m c).containerID = db.containerID ∧
    (applyResourceLimits db m c).createdAt = db.createdAt ∧
    (applyResourceLimits db m c).storageUsed = db.storageUsed ∧
    (applyResourceLimits db m c).storageLimit = db.storageLimit ∧
    (applyResourceLimits db m c).connections = db.connections ∧
    (applyResourceLimits db m c).maxConnections = db.maxConnections ∧
    (applyResourceLimits db m c).errorMessage = db.errorMessage ∧
    (applyResourceLimits db m c).exposePort = db.exposePort ∧
    (applyResourceLimits db m c).network = db.network ∧
    (applyResourceLimits db m c).backupEnabled = db.backupEnabled ∧
    (applyResourceLimits db m c).backupSchedule = db.backupSchedule ∧
    (applyResourceLimits db m c).backupRetentionCount = db.backupRetentionCount ∧
    (applyResourceLimits db m c).lastBackupAt = db.lastBackupAt := by
  unfold applyResourceLimits
  by_cases hm : 0 < m <;> by_cases hc : 0 < c <;> simp [hm, hc]

/-! ## Claim theorems -/

/-- C1 (amended): the status query returns exactly one canonical status
out of {running, stopped, creating, error} on both native backends.  On
the daemon-based (docker) backend: running maps to "running",
paused and exited map to "stopped", restarting maps to "creating", dead
or OOM-killed maps to "error" (not "stopped" as the original claim
states), and container-not-found maps to "error".  On the daemonless
(containerd) backend: running maps to "running", stopped and paused map
to "stopped", created and pausing map to "creating", and a load error
maps to "error".  No native state is left unmapped. -/
theorem status_mapping_canonical :
    (∀ s : DockerContainerState, s.running = true → dockerStateStatus s = "running") ∧
    (∀ s : DockerContainerState, s.running = false → s.paused = true →
      dockerStateStatus s = "stopped") ∧
    (∀ s : DockerContainerState, s.running = false → s.paused = false → s.restarting = false →
      s.dead = false → s.oomKilled = false → dockerStateStatus s = "stopped") ∧
    (∀ s : DockerContainerState, s.running = false → s.paused = false → s.restarting = true →
      dockerStateStatus s = "creating") ∧
    (∀ s : DockerContainerState, s.running = false → s.paused = false → s.restarting = false →
      s.dead = true ∨ s.oomKilled = true → dockerStateStatus s = "error") ∧
    dockerGetContainerStatus .notFound = .ok "error" ∧
    (∀ s : DockerContainerState, dockerStateStatus s = "running" ∨
      dockerStateStatus s = "stopped" ∨ dockerStateStatus s = "creating" ∨
      dockerStateStatus s = "error") ∧
    containerdGetContainerStatus .loadError = "error" ∧
    containerdTaskStatusToCanonical .running = "running" ∧
    containerdTaskStatusToCanonical .stopped = "stopped" ∧
    containerdTaskStatusToCanonical .paused = "stopped" ∧
    containerdTaskStatusToCanonical .created = "creating" ∧
    containerdTaskStatusToCanonical .pausing = "creating" ∧
    (∀ q : ContainerdQueryResult, containerdGetContainerStatus q = "running" ∨
      containerdGetContainerStatus q = "stopped" ∨ containerdGetContainerStatus q = "creating" ∨
      containerdGetContainerStatus q = "error") := by
  refine ⟨?_, ?_, ?_, ?_, ?_, rfl, ?_, rfl, rfl, rfl, rfl, rfl, rfl, ?_⟩
  · intro s h
    simp [dockerStateStatus, h]
  · intro s h1 h2
    simp [dockerStateStatus, h1, h2]
  · intro s h1 h2 h3 h4 h5
    simp [dockerStateStatus, h1, h2, h3, h4, h5]
  · intro s h1 h2 h3
    simp [dockerStateStatus, h1, h2, h3]
  · intro s h1 h2 h3 h4
    rcases h4 with h4 | h4 <;> simp [dockerStateStatus, h1, h2, h3, h4]
  · intro s
    unfold dockerStateStatus
    split_ifs <;> simp
  · intro q
    cases q with
    | loadError => simp [containerdGetContainerStatus]
    | noTask => simp [containerdGetContainerStatus]
    | statusError => simp [containerdGetContainerStatus]
    | task st => cases st <;> simp [containerdGetContainerStatus, containerdTaskStatusToCanonical]

/-- C1 counterexample: the docker backend maps the native "dead" state
to canonical "error", not to "stopped" as the claim states. -/
theorem status_mapping_dead_counterexample :
    dockerGetContainerStatus (.found ⟨false, false, false, true, false⟩) = .ok "error" ∧
    ("error" : String) ≠ "stopped" :=
  ⟨rfl, by decide⟩

/-- Witness: status_mapping_canonical applied at concrete docker and
containerd states. -/
theorem status_mapping_canonical_witness :
    dockerStateStatus ⟨true, false, false, false, false⟩ = "running" ∧
    dockerStateStatus ⟨false, true, false, false, false⟩ = "stopped" ∧
    dockerStateStatus ⟨false, false, true, false, false⟩ = "creating" ∧
    dockerStateStatus ⟨false, false, false, true, false⟩ = "error" :=
  ⟨status_mapping_canonical.1 _ rfl,
   status_mapping_canonical.2.1 _ rfl rfl,
   status_mapping_canonical.2.2.2.1 _ rfl rfl rfl,
   status_mapping_canonical.2.2.2.2.1 _ rfl rfl rfl (Or.inl rfl)⟩

/-- C7 (amended): parseBytes is total and never errors.  A decimal
number followed by a recognized unit (b, kb/kib, mb/mib, gb/gib, tb/tib,
case-insensitive) yields the value times the unit multiplier, so
parseBytes "1.5GiB" = 1610612736 and parseBytes "0B" = 0; a string not
matching the number-plus-unit grammar such as "garbage" yields 0; a
number with an unrecognized unit suffix yields the bare numeric value
(the multiplier defaults to 1), not 0 as the original claim states. -/
theorem parseBytes_spec :
    parseBytes "1.5GiB" = 1610612736 ∧
    parseBytes "0B" = 0 ∧
    parseBytes "garbage" = 0 ∧
    parseBytes "" = 0 ∧
    parseBytes "--" = 0 ∧
    parseBytes "23.4" = 0 ∧
    parseBytes "1kb" = 1024 ∧
    parseBytes "1KiB" = 1024 ∧
    parseBytes "2MB" = 2097152 ∧
    parseBytes "2MiB" = 2097152 ∧
    parseBytes "3gb" = 3221225472 ∧
    parseBytes "2TiB" = 2199023255552 ∧
    parseBytes "7B" = 7 ∧
    parseBytes "1.5 GiB" = 1610612736 ∧
    parseBytes "12PB" = 12 := by
  decide

/-- C7 counterexample: a number with an unrecognized unit suffix yields
the bare value, not 0: the unit switch has no default case, so the
multiplier stays 1. -/
theorem parseBytes_unknown_unit_counterexample :
    parseBytes "12PB" = 12 ∧ (12 : Int) ≠ 0 := by
  decide

/-- C8: normalizeImageName fully qualifies every image reference: a
bare single-segment name gets the "docker.io/library/" prefix, a
namespaced name without a registry gets the "docker.io/" prefix, and a
name whose first path segment contains a dot passes through
unchanged. -/
theorem normalizeImageName_spec :
    normalizeImageName "postgres:16" = "docker.io/library/postgres:16" ∧
    normalizeImageName "myuser/myimage:tag" = "docker.io/myuser/myimage:tag" ∧
    normalizeImageName "registry.example.com/ns/img:tag" = "registry.example.com/ns/img:tag" ∧
    (∀ name : String, name.toList.contains '/' = false →
      normalizeImageName name = "docker.io/library/" ++ name) ∧
    (∀ name : String, name.toList.contains '/' = true →
      (name.toList.takeWhile (fun c => !(c == '/'))).contains '.' = false →
      normalizeImageName name = "docker.io/" ++ name) ∧
    (∀ name : String, name.toList.contains '/' = true →
      (name.toList.takeWhile (fun c => !(c == '/'))).contains '.' = true →
      normalizeImageName name = name) := by
  refine ⟨by decide, by decide, by decide, ?_, ?_, ?_⟩
  · intro name h
    simp at h
    simp [normalizeImageName, h]
  · intro name h1 h2
    simp at h1 h2
    simp [normalizeImageName, h1, h2]
  · intro name h1 h2
    simp at h1 h2
    simp [normalizeImageName, h1, h2]

/-- Witness: normalizeImageName_spec applied at concrete image names. -/
theorem normalizeImageName_spec_witness :
    normalizeImageName "redis" = "docker.io/library/redis" ∧
    normalizeImageName "a/b" = "docker.io/a/b" ∧
    normalizeImageName "r.io/x" = "r.io/x" :=
  ⟨normalizeImageName_spec.2.2.2.1 "redis" (by decide),
   normalizeImageName_spec.2.2.2.2.1 "a/b" (by decide) (by decide),
   normalizeImageName_spec.2.2.2.2.2 "r.io/x" (by decide) (by decide)⟩

/-- C2 (amended): when Create runs with no caller-specified port
(port = 0), the allocated port is the result of the probe that starts at
the engine's default port, skips every port recorded on another
instance in the store and every port the operating system reports
unavailable, and wraps at the upper bound; when a free port is found
within the 1000 attempts it is one of the probed ports, not used and
OS-available; when all 1000 attempts fail a port is still returned
rather than an error — the candidate following the last-tried port (its
successor, or the wrapped-around start port), not the last-tried port
itself as the original claim states. -/
theorem port_allocation_spec :
    (∀ engines env id now s req engine db s',
      engines req.engine = some engine → req.port = 0 →
      createDedicatedDatabase engines env id now s req = .ok (db, s') →
      db.port = findAvailablePortLocked s env.portAvailable engine.defaultPort) ∧
    (∀ (s : Store) (avail : Nat → Bool) (startPort : Nat),
      (findAvailablePortLocked s avail startPort ∈ findAvailablePortTried s avail startPort ∧
       usedPortsOf s (findAvailablePortLocked s avail startPort) = false ∧
       avail (findAvailablePortLocked s avail startPort) = true) ∨
      ((∀ p ∈ findAvailablePortTried s avail startPort,
          usedPortsOf s p = true ∨ avail p = false) ∧
       ∃ l, (findAvailablePortTried s avail startPort).getLast? = some l ∧
         (findAvailablePortLocked s avail startPort = l + 1 ∨
          findAvailablePortLocked s avail startPort = startPort))) := by
  constructor
  · intro engines env id now s req engine db s' hE hport h
    unfold createDedicatedDatabase at h
    rw [hE] at h
    by_cases hm : env.mkdirOk = true
    · simp only [hport, if_pos rfl, if_pos hm] at h
      obtain ⟨hdb, _⟩ := Prod.mk.injEq .. ▸ (Except.ok.inj h)
      subst hdb
      rfl
    · simp only [if_neg hm] at h
      exact absurd h (by simp)
  · intro s avail startPort
    exact findPortLoop_spec (usedPortsOf s) avail startPort 1000 startPort (by omega)

/-- C2 counterexample: with an empty store and every OS probe failing,
the 1000 attempts starting at 5432 try exactly the ports 5432..6431, and
the function returns 6432 — the successor of the last-tried port 6431,
not the last-tried port itself. -/
theorem port_allocation_counterexample :
    findAvailablePortLocked [] (fun _ => false) 5432 = 6432 ∧
    (findAvailablePortTried [] (fun _ => false) 5432).getLast? = some 6431 ∧
    (6432 : Nat) ≠ 6431 := by
  refine ⟨?_, ?_, by decide⟩
  · show findPortLoop (usedPortsOf []) (fun _ => false) 5432 5432 1000 = 6432
    have h : usedPortsOf ([] : Store) = fun _ => false := rfl
    rw [h, findPortLoop_all_bad 5432 1000 5432 (by norm_num)]
  · show (findPortTrace (usedPortsOf []) (fun _ => false) 5432 5432 1000).getLast? = some 6431
    have h : usedPortsOf ([] : Store) = fun _ => false := rfl
    rw [h, findPortTrace_all_bad 5432 1000 5432 (by norm_num)]
    have h2 : List.range' 5432 1000 = List.range' 5432 999 ++ [5432 + 999] := by
      rw [← List.range'_concat]
    rw [h2, List.getLast?_concat]

/-- Witness: port_allocation_spec applied at a concrete request with
port 0 on an empty store, and at a concrete probe environment. -/
theorem port_allocation_spec_witness :
    dbCreatedW.port = findAvailablePortLocked [] (fun _ => true) 5432 :=
  port_allocation_spec.1 (fun _ => some engineW) ⟨fun _ => true, true⟩ "db-1" 0 [] reqW
    engineW dbCreatedW [dbCreatedW] rfl rfl rfl

/-- C3: Create persists and returns the record immediately with status
"creating"; background provisioning persists status "error" with a
descriptive message on failure at any step, issues each runtime call at
most once (no automatic retry) and does not attempt later steps after a
failure; on success it persists status "running" with the container
identifier returned by the runtime (non-empty whenever the runtime
returns a non-empty identifier) and a cleared error message. -/
theorem create_provision_lifecycle :
    (∀ engines env id now s req db s',
      createDedicatedDatabase engines env id now s req = .ok (db, s') →
      db.status = "creating" ∧ getDatabase s' db.id = .ok db) ∧
    (∀ (env : ProvisionEnv) (db : DatabaseInstance) imageName s e,
      getDatabase s db.id = .ok db → env.pullImage = .error e →
      getDatabase (provisionDedicatedDatabase env db imageName s).1 db.id =
        .ok { db with
              status := "error"
              errorMessage := "Failed to pull image: " ++ e } ∧
      (provisionDedicatedDatabase env db imageName s).2 = [.pullImage imageName]) ∧
    (∀ (env : ProvisionEnv) (db : DatabaseInstance) imageName s e,
      getDatabase s db.id = .ok db → env.pullImage = .ok () →
      env.createContainer = .error e →
      getDatabase (provisionDedicatedDatabase env db imageName s).1 db.id =
        .ok { db with
              status := "error"
              errorMessage := "Failed to create container: " ++ e } ∧
      (provisionDedicatedDatabase env db imageName s).2 =
        [.pullImage imageName, .createContainer ("dbnest-" ++ db.id)]) ∧
    (∀ (env : ProvisionEnv) (db : DatabaseInstance) imageName s cid e,
      getDatabase s db.id = .ok db → env.pullImage = .ok () →
      env.createContainer = .ok cid → env.startContainer = .error e →
      getDatabase (provisionDedicatedDatabase env db imageName s).1 db.id =
        .ok { db with
              containerID := cid
              status := "error"
              errorMessage := "Failed to start container: " ++ e } ∧
      (provisionDedicatedDatabase env db imageName s).2 =
        [.pullImage imageName, .createContainer ("dbnest-" ++ db.id), .startContainer cid]) ∧
    (∀ (env : ProvisionEnv) (db : DatabaseInstance) imageName s cid,
      getDatabase s db.id = .ok db → env.pullImage = .ok () →
      env.createContainer = .ok cid → env.startContainer = .ok () → cid ≠ "" →
      getDatabase (provisionDedicatedDatabase env db imageName s).1 db.id =
        .ok { db with
              containerID := cid
              status := "running"
              errorMessage := "" } ∧
      ({ db with
         containerID := cid
         status := "running"
         errorMessage := "" } : DatabaseInstance).containerID ≠ "" ∧
      (provisionDedicatedDatabase env db imageName s).2 =
        [.pullImage imageName, .createContainer ("dbnest-" ++ db.id), .startContainer cid]) := by
  refine ⟨?_, ?_, ?_, ?_, ?_⟩
  · intro engines env id now s req db s' h
    unfold createDedicatedDatabase at h
    cases hE : engines req.engine with
    | none => rw [hE] at h; exact absurd h (by simp)
    | some engine =>
      rw [hE] at h
      by_cases hm : env.mkdirOk = true
      · simp only [if_pos hm] at h
        obtain ⟨hdb, hs⟩ := Prod.mk.injEq .. ▸ (Except.ok.inj h)
        subst hdb
        subst hs
        exact ⟨rfl, getDatabase_createDatabase s _⟩
      · simp only [if_neg hm] at h
        exact absurd h (by simp)
  · intro env db imageName s e hdb hpull
    constructor
    · simp only [provisionDedicatedDatabase, hpull]
      exact getDatabase_updateDatabaseBE s db _ hdb
    · simp only [provisionDedicatedDatabase, hpull]
  · intro env db imageName s e hdb hpull hcreate
    constructor
    · simp only [provisionDedicatedDatabase, hpull, hcreate]
      exact getDatabase_updateDatabaseBE s db _ hdb
    · simp only [provisionDedicatedDatabase, hpull, hcreate]
  · intro env db imageName s cid e hdb hpull hcreate hstart
    constructor
    · simp only [provisionDedicatedDatabase, hpull, hcreate, hstart]
      exact getDatabase_updateDatabaseBE s db _ hdb
    · simp only [provisionDedicatedDatabase, hpull, hcreate, hstart]
  · intro env db imageName s cid hdb hpull hcreate hstart hcid
    refine ⟨?_, by simpa using hcid, ?_⟩
    · simp only [provisionDedicatedDatabase, hpull, hcreate, hstart]
      exact getDatabase_updateDatabaseBE s db _ hdb
    · simp only [provisionDedicatedDatabase, hpull, hcreate, hstart]

/-- Witness: create_provision_lifecycle applied to a concrete create on
an empty store followed by a concrete provisioning run in which the
image pull fails. -/
theorem create_provision_lifecycle_witness :
    (dbCreatedW.status = "creating" ∧ getDatabase [dbCreatedW] dbCreatedW.id = .ok dbCreatedW) ∧
    getDatabase
        (provisionDedicatedDatabase ⟨.error "no network", .ok "c1", .ok ()⟩
          dbCreatedW "postgres:16" [dbCreatedW]).1 dbCreatedW.id =
      .ok { dbCreatedW with
            status := "error"
            errorMessage := "Failed to pull image: " ++ "no network" } :=
  ⟨create_provision_lifecycle.1 (fun _ => some engineW) ⟨fun _ => true, true⟩ "db-1" 0 [] reqW
      dbCreatedW [dbCreatedW] rfl,
   (create_provision_lifecycle.2.1 ⟨.error "no network", .ok "c1", .ok ()⟩ dbCreatedW
      "postgres:16" [dbCreatedW] "no network" rfl rfl).1⟩

/-- C4: one reconciliation pass over a stored instance leaves instances
with an empty container identifier or status "creating" untouched;
demotes a stored "running" to "error" with a descriptive message when
the status query fails; overwrites the stored status with the canonical
one when the query succeeds and they differ, clearing the error message
when the new status is "running"; and a second pass with no further
drift changes nothing. -/
theorem syncStatus_spec :
    (∀ q s (db : DatabaseInstance), db.containerID = "" ∨ db.status = "creating" →
      syncStatus q s db = s) ∧
    (∀ s (db : DatabaseInstance), db.containerID ≠ "" → db.status = "running" →
      getDatabase s db.id = .ok db →
      getDatabase (syncStatus (.error ()) s db) db.id =
        .ok { db with
              status := "error"
              errorMessage := "Container not accessible" }) ∧
    (∀ s (db : DatabaseInstance), db.status ≠ "running" → syncStatus (.error ()) s db = s) ∧
    (∀ actual s (db : DatabaseInstance), db.containerID ≠ "" → db.status ≠ "creating" →
      actual ≠ db.status → getDatabase s db.id = .ok db →
      getDatabase (syncStatus (.ok actual) s db) db.id =
        .ok { db with
              status := actual
              errorMessage := if actual = "running" then "" else db.errorMessage }) ∧
    (∀ actual s (db : DatabaseInstance), actual = db.status →
      syncStatus (.ok actual) s db = s) ∧
    (∀ actual s (db db' : DatabaseInstance), getDatabase s db.id = .ok db →
      getDatabase (syncStatus (.ok actual) s db) db.id = .ok db' →
      syncStatus (.ok actual) (syncStatus (.ok actual) s db) db' =
        syncStatus (.ok actual) s db) ∧
    (∀ s (db db' : DatabaseInstance), getDatabase s db.id = .ok db →
      getDatabase (syncStatus (.error ()) s db) db.id = .ok db' →
      syncStatus (.error ()) (syncStatus (.error ()) s db) db' =
        syncStatus (.error ()) s db) := by
  refine ⟨?_, ?_, ?_, ?_, ?_, ?_, ?_⟩
  · exact syncStatus_skip
  · intro s db hc hr hdb
    have hg : ¬ (db.containerID = "" ∨ db.status = "creating") := by
      rintro (h | h)
      · exact hc h
      · rw [hr] at h; exact absurd h (by decide)
    simp only [syncStatus, if_neg hg, if_pos hr]
    exact getDatabase_updateDatabaseBE s db _ hdb
  · exact syncStatus_err_notRunning
  · intro actual s db hc hs hne hdb
    have hg : ¬ (db.containerID = "" ∨ db.status = "creating") := by
      rintro (h | h)
      · exact hc h
      · exact hs h
    simp only [syncStatus, if_neg hg, if_pos hne]
    exact getDatabase_updateDatabaseBE s db _ hdb
  · exact syncStatus_ok_eq
  · intro actual s db db' hdb hdb'
    by_cases hg : db.containerID = "" ∨ db.status = "creating"
    · have hid := syncStatus_skip (.ok actual) s db hg
      rw [hid] at hdb' ⊢
      rw [hdb'] at hdb
      have hdd : db' = db := Except.ok.inj hdb
      rw [hdd]
      exact syncStatus_skip _ _ _ hg
    · by_cases heq : actual = db.status
      · have hid := syncStatus_ok_eq actual s db heq
        rw [hid] at hdb' ⊢
        rw [hdb'] at hdb
        have hdd : db' = db := Except.ok.inj hdb
        rw [hdd]
        exact syncStatus_ok_eq actual s db heq
      · have hupd : syncStatus (.ok actual) s db =
            updateDatabaseBE s { db with
              status := actual
              errorMessage := if actual = "running" then "" else db.errorMessage } := by
          unfold syncStatus
          rw [if_neg hg]
          simp only [if_pos (show actual ≠ db.status from heq)]
        have hfound := getDatabase_updateDatabaseBE s db
          { db with
            status := actual
            errorMessage := if actual = "running" then "" else db.errorMessage } hdb
        rw [hupd] at hdb' ⊢
        rw [hdb'] at hfound
        have hdd : db' = _ := Except.ok.inj hfound
        rw [hdd]
        exact syncStatus_ok_eq actual _ _ rfl
  · intro s db db' hdb hdb'
    by_cases hg : db.containerID = "" ∨ db.status = "creating"
    · have hid := syncStatus_skip (.error ()) s db hg
      rw [hid] at hdb' ⊢
      rw [hdb'] at hdb
      have hdd : db' = db := Except.ok.inj hdb
      rw [hdd]
      exact syncStatus_skip _ _ _ hg
    · by_cases hr : db.status = "running"
      · have hupd : syncStatus (.error ()) s db =
            updateDatabaseBE s { db with
              status := "error"
              errorMessage := "Container not accessible" } := by
          unfold syncStatus
          rw [if_neg hg]
          simp only [if_pos hr]
        have hfound := getDatabase_updateDatabaseBE s db
          { db with
            status := "error"
            errorMessage := "Container not accessible" } hdb
        rw [hupd] at hdb' ⊢
        rw [hdb'] at hfound
        have hdd : db' = _ := Except.ok.inj hfound
        rw [hdd]
        exact syncStatus_err_notRunning _ _ (show ("error" : String) ≠ "running" by decide)
      · have hid := syncStatus_err_notRunning s db hr
        rw [hid] at hdb' ⊢
        rw [hdb'] at hdb
        have hdd : db' = db := Except.ok.inj hdb
        rw [hdd]
        exact hid

/-- Witness: syncStatus_spec applied at a concrete stored "running"
instance whose container now reports "stopped", and at the skip guard. -/
theorem syncStatus_spec_witness :
    getDatabase (syncStatus (.ok "stopped") [dbW] dbW) dbW.id =
      .ok { dbW with
            status := "stopped"
            errorMessage := if "stopped" = "running" then "" else dbW.errorMessage } ∧
    syncStatus (.ok "stopped") [dbW] { dbW with containerID := "" } = [dbW] :=
  ⟨syncStatus_spec.2.2.2.1 "stopped" [dbW] dbW (by decide) (by decide) (by decide) rfl,
   syncStatus_spec.1 (.ok "stopped") [dbW] { dbW with containerID := "" } (Or.inl rfl)⟩

/-- C5: Delete on an existing instance attempts container removal (when
a container is recorded), volume removal and data-directory removal, and
the outcome — including the final record deletion — does not depend on
the outcomes of those best-effort steps; the record is always deleted;
a second Delete on the same ID returns a not-found error, issues no
runtime calls and mutates nothing. -/
theorem managerDelete_spec :
    (∀ env env' s id, managerDelete env s id = managerDelete env' s id) ∧
    (∀ env s id db, getDatabase s id = .ok db →
      (managerDelete env s id).1 = .ok (s.filter (fun d => !(d.id == id))) ∧
      (managerDelete env s id).2.2 = true ∧
      RuntimeCall.deleteVolume ("dbnest-vol-" ++ id) ∈ (managerDelete env s id).2.1 ∧
      (db.containerID ≠ "" →
        RuntimeCall.removeContainer db.containerID true ∈ (managerDelete env s id).2.1)) ∧
    (∀ env env2 s id db s1, getDatabase s id = .ok db →
      (managerDelete env s id).1 = .ok s1 →
      getDatabase s1 id = .error ("database not found: " ++ id) ∧
      managerDelete env2 s1 id = (.error ("database not found: " ++ id), [], false)) := by
  have hany : ∀ (s : Store) (id : String) (db : DatabaseInstance),
      getDatabase s id = .ok db → s.any (fun d => d.id == id) = true := by
    intro s id db h
    unfold getDatabase at h
    cases hf : s.find? (fun d => d.id == id) with
    | none => rw [hf] at h; exact absurd h (by simp)
    | some d => exact any_of_find? hf
  refine ⟨?_, ?_, ?_⟩
  · intro env env' s id
    rfl
  · intro env s id db h
    refine ⟨?_, ?_, ?_, ?_⟩
    · simp only [managerDelete, h]
      unfold deleteDatabase
      rw [if_pos (hany s id db h)]
    · simp only [managerDelete, h]
    · simp only [managerDelete, h]
      simp
    · intro hc
      simp only [managerDelete, h, if_pos hc]
      simp
  · intro env env2 s id db s1 h h1
    simp only [managerDelete, h] at h1
    unfold deleteDatabase at h1
    rw [if_pos (hany s id db h)] at h1
    have hs1 : s1 = s.filter (fun d => !(d.id == id)) := (Except.ok.inj h1).symm
    have hget : getDatabase s1 id = .error ("database not found: " ++ id) := by
      rw [hs1]
      unfold getDatabase
      rw [find?_filter_ne]
    refine ⟨hget, ?_⟩
    simp only [managerDelete, hget]

/-- Witness: managerDelete_spec applied at a concrete one-record
store, and the second delete at the emptied store. -/
theorem managerDelete_spec_witness :
    (managerDelete ⟨none, none, none⟩ [dbW] "db-9").1 =
      .ok ([dbW].filter (fun d => !(d.id == "db-9"))) ∧
    RuntimeCall.removeContainer dbW.containerID true ∈
      (managerDelete ⟨none, none, none⟩ [dbW] "db-9").2.1 :=
  ⟨(managerDelete_spec.2.1 ⟨none, none, none⟩ [dbW] "db-9" dbW rfl).1,
   (managerDelete_spec.2.1 ⟨none, none, none⟩ [dbW] "db-9" dbW rfl).2.2.2 (by decide)⟩

/-! C6 helper facts about the retention deletion fold. -/

lemma retentionFold_subset (ok : String → Bool) :
    ∀ (l st : List Backup) (x : Backup),
      x ∈ l.foldl (fun acc b => if ok b.id then acc.filter (fun y => !(y.id == b.id)) else acc) st →
      x ∈ st := by
  intro l
  induction l with
  | nil => intro st x hx; simpa using hx
  | cons a t ih =>
    intro st x hx
    have hx' := ih _ x hx
    dsimp only at hx'
    by_cases hok : ok a.id = true
    · rw [if_pos hok] at hx'
      exact (List.mem_filter.mp hx').1
    · rwa [if_neg hok] at hx'

lemma retentionFold_not_mem (ok : String → Bool) :
    ∀ (l st : List Backup) (b : Backup), b ∈ l → ok b.id = true →
      ∀ x ∈ l.foldl (fun acc b => if ok b.id then acc.filter (fun y => !(y.id == b.id)) else acc) st,
        x.id ≠ b.id := by
  intro l
  induction l with
  | nil => intro st b hb; exact absurd hb (by simp)
  | cons a t ih =>
    intro st b hb hok x hx
    rcases List.mem_cons.mp hb with rfl | hb'
    · have hx' := retentionFold_subset ok t _ x hx
      dsimp only at hx'
      rw [if_pos hok] at hx'
      simpa using (List.mem_filter.mp hx').2
    · exact ih _ b hb' hok x hx

/-- C6: one application of retention with retention count N > 0 and
more than N stored backups deletes exactly the backups beyond the N
newest of the newest-first order: N backups are kept, kept plus deleted
is a permutation of the whole set, every deleted backup is at most as
recent as every kept one (strictly older when timestamps are distinct),
and a failed deletion does not prevent the remaining deletions; with at
most N backups or N ≤ 0 nothing is deleted. -/
theorem applyRetention_spec :
    (∀ (n : Int) (backups : List Backup), n ≤ 0 → applyRetentionDeletions n backups = []) ∧
    (∀ (n : Int) (backups : List Backup), (backups.length : Int) ≤ n →
      applyRetentionDeletions n backups = []) ∧
    (∀ (n : Int) (backups : List Backup), 0 < n → n < (backups.length : Int) →
      (applyRetentionKept n backups).length = n.toNat ∧
      (applyRetentionKept n backups ++ applyRetentionDeletions n backups).Perm backups ∧
      (∀ k ∈ applyRetentionKept n backups, ∀ d ∈ applyRetentionDeletions n backups,
        d.createdAt ≤ k.createdAt) ∧
      (backups.Pairwise (fun a b => a.createdAt ≠ b.createdAt) →
        ∀ k ∈ applyRetentionKept n backups, ∀ d ∈ applyRetentionDeletions n backups,
          d.createdAt < k.createdAt)) ∧
    (∀ (deleteOk : String → Bool) (n : Int) (backups bucket : List Backup) (b : Backup),
      b ∈ applyRetentionDeletions n backups → deleteOk b.id = true →
      ∀ x ∈ applyRetentionRun deleteOk n backups bucket, x.id ≠ b.id) := by
  refine ⟨?_, ?_, ?_, ?_⟩
  · intro n backups hn
    unfold applyRetentionDeletions
    rw [if_pos hn]
  · intro n backups hlen
    unfold applyRetentionDeletions
    by_cases hn : n ≤ 0
    · rw [if_pos hn]
    · rw [if_neg hn, if_pos hlen]
  · intro n backups hn hlen
    haveI : IsTotal Backup (fun a b => b.createdAt ≤ a.createdAt) :=
      ⟨fun a b => Nat.le_total b.createdAt a.createdAt⟩
    haveI : IsTrans Backup (fun a b => b.createdAt ≤ a.createdAt) :=
      ⟨fun _ _ _ hab hbc => le_trans hbc hab⟩
    have hperm : (sortBackupsNewestFirst backups).Perm backups :=
      List.perm_insertionSort _ _
    have hsortlen : (sortBackupsNewestFirst backups).length = backups.length :=
      hperm.length_eq
    have hne1 : ¬ n ≤ 0 := by omega
    have hne2 : ¬ (backups.length : Int) ≤ n := by omega
    have hkept : applyRetentionKept n backups =
        (sortBackupsNewestFirst backups).take n.toNat := by
      unfold applyRetentionKept
      rw [if_neg hne1, if_neg hne2]
    have hdel : applyRetentionDeletions n backups =
        (sortBackupsNewestFirst backups).drop n.toNat := by
      unfold applyRetentionDeletions
      rw [if_neg hne1, if_neg hne2]
    have hperm2 : (applyRetentionKept n backups ++ applyRetentionDeletions n backups).Perm
        backups := by
      rw [hkept, hdel, List.take_append_drop]
      exact hperm
    have hsorted : List.Sorted (fun a b => b.createdAt ≤ a.createdAt)
        (sortBackupsNewestFirst backups) := List.sorted_insertionSort _ _
    have hpairle : List.Pairwise (fun a b => b.createdAt ≤ a.createdAt)
        (applyRetentionKept n backups ++ applyRetentionDeletions n backups) := by
      rw [hkept, hdel, List.take_append_drop]
      exact hsorted
    have hle := (List.pairwise_append.mp hpairle).2.2
    refine ⟨?_, hperm2, hle, ?_⟩
    · rw [hkept, List.length_take, hsortlen]
      exact Nat.min_eq_left (by omega)
    · intro hdist k hk d hd
      have hpairne : List.Pairwise (fun a b : Backup => a.createdAt ≠ b.createdAt)
          (applyRetentionKept n backups ++ applyRetentionDeletions n backups) :=
        (hperm2.pairwise_iff (fun h => Ne.symm h)).mpr hdist
      have hne := (List.pairwise_append.mp hpairne).2.2 k hk d hd
      exact lt_of_le_of_ne (hle k hk d hd) (Ne.symm hne)
  · intro deleteOk n backups bucket b hb hok x hx
    exact retentionFold_not_mem deleteOk _ bucket b hb hok x hx

/-- Witness: applyRetention_spec applied to five backups with distinct
increasing timestamps and retention count 3, and the early-exit case. -/
theorem applyRetention_spec_witness :
    (applyRetentionKept 3 backupsW).length = (3 : Int).toNat ∧
    applyRetentionDeletions 5 backupsW = [] :=
  ⟨(applyRetention_spec.2.2.1 3 backupsW (by decide) (by decide)).1,
   applyRetention_spec.2.1 5 backupsW (by decide)⟩

/-- C9: UpdateResources mutates only the persisted record — it sets
MemoryLimit when memory > 0 and CPULimit when cpu > 0, leaves every
other field of the instance and every other record of the store
unchanged — and it issues no runtime-client call, so it never invokes
UpdateContainerResources and the running container's live limits are
untouched. -/
theorem updateResources_spec :
    (∀ (s : Store) (id : String) (memoryLimit : Int) (cpuLimit : ℚ),
      (managerUpdateResources s id memoryLimit cpuLimit).2 = []) ∧
    (∀ (s : Store) (id : String) (memoryLimit : Int) (cpuLimit : ℚ) db db' s',
      getDatabase s id = .ok db →
      (managerUpdateResources s id memoryLimit cpuLimit).1 = .ok (db', s') →
      getDatabase s' id = .ok db' ∧
      (∀ oid, oid ≠ id → getDatabase s' oid = getDatabase s oid) ∧
      (db'.memoryLimit = (if 0 < memoryLimit then memoryLimit else db.memoryLimit) ∧
       db'.cpuLimit = (if 0 < cpuLimit then cpuLimit else db.cpuLimit) ∧
       db'.id = db.id ∧
       db'.name = db.name ∧
       db'.engine = db.engine ∧
       db'.version = db.version ∧
       db'.status = db.status ∧
       db'.host = db.host ∧
       db'.port = db.port ∧
       db'.username = db.username ∧
       db'.password = db.password ∧
       db'.database = db.database ∧
       db'.containerID = db.containerID ∧
       db'.createdAt = db.createdAt ∧
       db'.storageUsed = db.storageUsed ∧
       db'.storageLimit = db.storageLimit ∧
       db'.connections = db.connections ∧
       db'.maxConnections = db.maxConnections ∧
       db'.errorMessage = db.errorMessage ∧
       db'.exposePort = db.exposePort ∧
       db'.network = db.network ∧
       db'.backupEnabled = db.backupEnabled ∧
       db'.backupSchedule = db.backupSchedule ∧
       db'.backupRetentionCount = db.backupRetentionCount ∧
       db'.lastBackupAt = db.lastBackupAt)) := by
  constructor
  · intro s id m c
    unfold managerUpdateResources
    split
    · rfl
    · split
      · rfl
      · rfl
  · intro s id m c db db' s' hget hok
    have hfind : s.find? (fun d => d.id == id) = some db := by
      unfold getDatabase at hget
      cases hf : s.find? (fun d => d.id == id) with
      | none => rw [hf] at hget; exact absurd hget (by simp)
      | some d => rw [hf] at hget; exact congrArg some (Except.ok.inj hget)
    have hdid : db.id = id := by simpa using List.find?_some hfind
    have hany2 : s.any (fun d => d.id == (applyResourceLimits db m c).id) = true := by
      rw [applyResourceLimits_id, hdid]
      exact any_of_find? hfind
    simp only [managerUpdateResources, hget] at hok
    rw [show updateDatabase s (applyResourceLimits db m c) =
        .ok (s.map (fun d =>
          if d.id == (applyResourceLimits db m c).id then applyResourceLimits db m c else d))
      from by unfold updateDatabase; rw [if_pos hany2]] at hok
    obtain ⟨h1, h2⟩ := Prod.mk.injEq .. ▸ Except.ok.inj hok
    subst h1
    subst h2
    refine ⟨?_, ?_, applyResourceLimits_fields db m c⟩
    · have hgu : getDatabase s ((applyResourceLimits db m c).id) = .ok db := by
        rw [applyResourceLimits_id, hdid]
        exact hget
      have hres := getDatabase_updateDatabaseBE s db (applyResourceLimits db m c) hgu
      rw [← hdid, ← applyResourceLimits_id db m c]
      exact hres
    · intro oid hoid
      have hne : ((applyResourceLimits db m c).id == oid) = false := by
        rw [applyResourceLimits_id, hdid]
        exact beq_eq_false_iff_ne.mpr (Ne.symm hoid)
      unfold getDatabase
      rw [find?_map_replace_other s (applyResourceLimits db m c) oid hne]

/-- Witness: updateResources_spec applied at a concrete store and
limits. -/
theorem updateResources_spec_witness :
    (managerUpdateResources [dbW] "db-9" 2048 2).2 = [] ∧
    getDatabase [applyResourceLimits dbW 2048 2] "db-9" =
      .ok (applyResourceLimits dbW 2048 2) :=
  ⟨updateResources_spec.1 [dbW] "db-9" 2048 2,
   (updateResources_spec.2 [dbW] "db-9" 2048 2 dbW (applyResourceLimits dbW 2048 2)
      [applyResourceLimits dbW 2048 2] rfl rfl).1⟩

/-- C10: for every pair of ContainerConfig values that differ only in
their ExposePort and Network fields, the CLI backend and the
daemon-based backend each build identical container-create invocations:
both always apply the configured port bindings to the host and always
attach the client's construction-time network, so the config's
ExposePort flag and Network name have no effect on the created
container. -/
theorem createContainer_ignores_exposePort_network :
    (∀ (net : String) (cfg : ContainerConfig) (ep : Bool) (nw : String),
      cliCreateContainerArgs net { cfg with exposePort := ep, network := nw } =
        cliCreateContainerArgs net cfg) ∧
    (∀ (net : String) (cfg : ContainerConfig) (ep : Bool) (nw : String),
      dockerCreateContainerInvocation net { cfg with exposePort := ep, network := nw } =
        dockerCreateContainerInvocation net cfg) ∧
    (∀ (net : String) (cfg : ContainerConfig),
      (dockerCreateContainerInvocation net cfg).networkMode = net) ∧
    (∀ (net : String) (cfg : ContainerConfig),
      (dockerCreateContainerInvocation net cfg).portBindings =
        cfg.portBindings.map (fun pb => (pb.1, "0.0.0.0", pb.2))) ∧
    (∀ (net : String) (cfg : ContainerConfig),
      (cliCreateContainerArgs net cfg).take 5 =
        ["create", "--name", cfg.name, "--network", net]) ∧
    (∀ (net : String) (cfg : ContainerConfig) (pb : String × String),
      pb ∈ cfg.portBindings →
      (pb.2 ++ ":" ++ pb.1) ∈ cliCreateContainerArgs net cfg) := by
  refine ⟨?_, ?_, ?_, ?_, ?_, ?_⟩
  · intro net cfg ep nw
    rfl
  · intro net cfg ep nw
    rfl
  · intro net cfg
    rfl
  · intro net cfg
    rfl
  · intro net cfg
    rfl
  · intro net cfg pb hpb
    have hmem : (pb.2 ++ ":" ++ pb.1) ∈
        cfg.portBindings.flatMap (fun pb => ["-p", pb.2 ++ ":" ++ pb.1]) :=
      List.mem_flatMap.mpr ⟨pb, hpb, by simp⟩
    unfold cliCreateContainerArgs
    simp only [List.append_assoc, List.mem_append]
    tauto

/-- Witness: createContainer_ignores_exposePort_network applied at a
concrete configuration. -/
theorem createContainer_ignores_exposePort_network_witness :
    cliCreateContainerArgs "dbnest" { cfgW with exposePort := false, network := "other" } =
      cliCreateContainerArgs "dbnest" cfgW ∧
    ("15432" ++ ":" ++ "5432/tcp") ∈ cliCreateContainerArgs "dbnest" cfgW :=
  ⟨createContainer_ignores_exposePort_network.1 "dbnest" cfgW false "other",
   createContainer_ignores_exposePort_network.2.2.2.2.2 "dbnest" cfgW ("5432/tcp", "15432")
     (by decide)⟩

end DBNest
